import Mathlib

/-!
Verification of `avalanche/training/strategies.py`: the three strategy
wrapper classes `Naive`, `MTNaive` and `CWRStar`.

Embedding choices:
* The opaque caller-owned handles (model, optimizer, criterion, evaluation
  protocol, device) are `Nat` identifiers: the wrappers never inspect them,
  so identity is all that matters.
* A Python plugin object is a `StrategyPlugin` value: caller-supplied
  plugins are `.ext id`, while the two internally constructed plugins carry
  exactly the arguments their Python constructors receive.
* Python list aliasing is modelled with an explicit store: a caller's list
  is a reference (`Ref`, an index) into a `Store` of lists.  `append`
  mutates the store cell in place; `plugins = [mhp]` allocates a fresh
  cell at the end of the store.
* `BaseStrategy.__init__` is not part of the file; only its call sites
  are.  A call is recorded as a `BaseStrategyCall`: fields `p1`..`p4`
  record the four positional arguments in the order the call site passes
  them, the remaining fields record the keyword arguments by name.
* Each `X.init` returns the recorded base call together with the store
  after construction.  `X.initE` is the same body with the plugin
  constructor and the base constructor taken as possibly-failing
  parameters, for reasoning about error propagation.
-/

namespace Avalanche

abbrev Model := Nat

abbrev Optimizer := Nat

abbrev Criterion := Nat

abbrev EvalProtocol := Nat

abbrev Device := Nat

/-- A plugin object.  `ext` is an arbitrary caller-supplied plugin;
`multiHead` and `cwrStar` are the two plugin classes constructed inside
`strategies.py`, carrying their constructor arguments. -/
inductive StrategyPlugin : Type where
  | ext (id : Nat)
  | multiHead (model : Model) (classifier_field : String)
      (keep_initial_layer : Bool)
  | cwrStar (model : Model) (second_last_layer_name : String)
      (num_classes : Nat)
deriving DecidableEq

/-- The call `MultiHeadPlugin(model, classifier_field=..., keep_initial_layer=...)`
(strategies.py line 73). -/
def MultiHeadPlugin (model : Model) (classifier_field : String)
    (keep_initial_layer : Bool) : StrategyPlugin :=
  StrategyPlugin.multiHead model classifier_field keep_initial_layer

/-- The call `CWRStarPlugin(model, second_last_layer_name, num_classes)`
(strategies.py line 118). -/
def CWRStarPlugin (model : Model) (second_last_layer_name : String)
    (num_classes : Nat) : StrategyPlugin :=
  StrategyPlugin.cwrStar model second_last_layer_name num_classes

/-- A reference to a caller-visible Python list object. -/
abbrev Ref := Nat

/-- The heap of plugin-list objects, indexed by `Ref`. -/
abbrev Store := List (List StrategyPlugin)

/-- The arguments of one call to `BaseStrategy.__init__` as the three
wrappers perform it: `p1 p2 p3 p4` are the positional arguments in call
order (`model, criterion, optimizer, evaluation_protocol`), the rest are
the keyword arguments. -/
structure BaseStrategyCall where
  p1 : Model
  p2 : Criterion
  p3 : Optimizer
  p4 : Option EvalProtocol
  train_mb_size : Nat
  train_epochs : Nat
  test_mb_size : Option Nat
  device : Option Device
  plugins : Option Ref
deriving DecidableEq

/-- `Naive.__init__` (strategies.py lines 22-43): a single `super().__init__`
call forwarding every argument; the store is untouched. -/
def Naive.init (model : Model) (optimizer : Optimizer) (criterion : Criterion)
    (evaluation_protocol : Option EvalProtocol)
    (train_mb_size : Nat) (train_epochs : Nat)
    (test_mb_size : Option Nat) (device : Option Device)
    (plugins : Option Ref) (σ : Store) : BaseStrategyCall × Store :=
  (⟨model, criterion, optimizer, evaluation_protocol, train_mb_size,
    train_epochs, test_mb_size, device, plugins⟩, σ)

/-- `Naive(...)` with every optional parameter left at its signature
default (strategies.py lines 22-26): `evaluation_protocol=None`,
`train_mb_size=1`, `train_epochs=1`, `test_mb_size=None`, `device=None`,
`plugins=None`. -/
def Naive.initDefault (model : Model) (optimizer : Optimizer)
    (criterion : Criterion) (σ : Store) : BaseStrategyCall × Store :=
  Naive.init model optimizer criterion none 1 1 none none none σ

/-- Lines 75-82 of `MTNaive.__init__`, after the plugin object `mhp` has
been built: the `if plugins is None` branch allocates the fresh list
`[mhp]`, the `else` branch appends `mhp` to the caller's list in place;
then `super().__init__` is called with the resulting list reference. -/
def MTNaive.assemble (model : Model) (optimizer : Optimizer)
    (criterion : Criterion) (evaluation_protocol : Option EvalProtocol)
    (train_mb_size : Nat) (train_epochs : Nat)
    (test_mb_size : Option Nat) (device : Option Device)
    (plugins : Option Ref) (mhp : StrategyPlugin) (σ : Store) :
    BaseStrategyCall × Store :=
  let rσ : Ref × Store :=
    match plugins with
    | none => (σ.length, σ ++ [[mhp]])
    | some r => (r, σ.set r (σ.getD r [] ++ [mhp]))
  (⟨model, criterion, optimizer, evaluation_protocol, train_mb_size,
    train_epochs, test_mb_size, device, some rσ.1⟩, rσ.2)

/-- `MTNaive.__init__` (strategies.py lines 51-82). -/
def MTNaive.init (model : Model) (optimizer : Optimizer)
    (criterion : Criterion) (evaluation_protocol : Option EvalProtocol)
    (train_mb_size : Nat) (train_epochs : Nat)
    (test_mb_size : Option Nat) (device : Option Device)
    (plugins : Option Ref) (classifier_field : String)
    (keep_initial_layer : Bool) (σ : Store) : BaseStrategyCall × Store :=
  MTNaive.assemble model optimizer criterion evaluation_protocol
    train_mb_size train_epochs test_mb_size device plugins
    (MultiHeadPlugin model classifier_field keep_initial_layer) σ

/-- `MTNaive(...)` with every optional parameter left at its signature
default (strategies.py lines 51-57): in addition to the `Naive` defaults,
`classifier_field="classifier"` and `keep_initial_layer=False`. -/
def MTNaive.initDefault (model : Model) (optimizer : Optimizer)
    (criterion : Criterion) (σ : Store) : BaseStrategyCall × Store :=
  MTNaive.init model optimizer criterion none 1 1 none none none
    "classifier" false σ

/-- Lines 119-126 of `CWRStar.__init__`, after the plugin object `cwsp`
has been built: same append-or-allocate policy as `MTNaive`. -/
def CWRStar.assemble (model : Model) (optimizer : Optimizer)
    (criterion : Criterion) (evaluation_protocol : Option EvalProtocol)
    (train_mb_size : Nat) (train_epochs : Nat)
    (test_mb_size : Option Nat) (device : Option Device)
    (plugins : Option Ref) (cwsp : StrategyPlugin) (σ : Store) :
    BaseStrategyCall × Store :=
  let rσ : Ref × Store :=
    match plugins with
    | none => (σ.length, σ ++ [[cwsp]])
    | some r => (r, σ.set r (σ.getD r [] ++ [cwsp]))
  (⟨model, criterion, optimizer, evaluation_protocol, train_mb_size,
    train_epochs, test_mb_size, device, some rσ.1⟩, rσ.2)

/-- `CWRStar.__init__` (strategies.py lines 95-126). -/
def CWRStar.init (model : Model) (optimizer : Optimizer)
    (criterion : Criterion) (second_last_layer_name : String)
    (num_classes : Nat) (evaluation_protocol : Option EvalProtocol)
    (train_mb_size : Nat) (train_epochs : Nat)
    (test_mb_size : Option Nat) (device : Option Device)
    (plugins : Option Ref) (σ : Store) : BaseStrategyCall × Store :=
  CWRStar.assemble model optimizer criterion evaluation_protocol
    train_mb_size train_epochs test_mb_size device plugins
    (CWRStarPlugin model second_last_layer_name num_classes) σ

/-- `CWRStar(...)` with only `num_classes` omitted, so it takes its
signature default `50` (strategies.py line 96). -/
def CWRStar.initOmitNumClasses (model : Model) (optimizer : Optimizer)
    (criterion : Criterion) (second_last_layer_name : String)
    (evaluation_protocol : Option EvalProtocol)
    (train_mb_size : Nat) (train_epochs : Nat)
    (test_mb_size : Option Nat) (device : Option Device)
    (plugins : Option Ref) (σ : Store) : BaseStrategyCall × Store :=
  CWRStar.init model optimizer criterion second_last_layer_name 50
    evaluation_protocol train_mb_size train_epochs test_mb_size device
    plugins σ

/-- `CWRStar(...)` with every optional parameter left at its signature
default (strategies.py lines 95-101): `num_classes=50` plus the `Naive`
defaults; `second_last_layer_name` has no default and stays required. -/
def CWRStar.initDefault (model : Model) (optimizer : Optimizer)
    (criterion : Criterion) (second_last_layer_name : String) (σ : Store) :
    BaseStrategyCall × Store :=
  CWRStar.init model optimizer criterion second_last_layer_name 50
    none 1 1 none none none σ

/-- `Naive.__init__` with the base constructor taken as a possibly-failing
parameter: the body is the single `super().__init__` call, with no
try/except around it. -/
def Naive.initE {ε β : Type} (baseInit : BaseStrategyCall × Store → Except ε β)
    (model : Model) (optimizer : Optimizer) (criterion : Criterion)
    (evaluation_protocol : Option EvalProtocol)
    (train_mb_size : Nat) (train_epochs : Nat)
    (test_mb_size : Option Nat) (device : Option Device)
    (plugins : Option Ref) (σ : Store) : Except ε β :=
  baseInit (Naive.init model optimizer criterion evaluation_protocol
    train_mb_size train_epochs test_mb_size device plugins σ)

/-- `MTNaive.__init__` with the plugin constructor and the base constructor
taken as possibly-failing parameters, mirroring the straight-line body:
build the plugin first (line 73), then assemble and call the base, with no
try/except anywhere. -/
def MTNaive.initE {ε β : Type}
    (mkMultiHeadPlugin : Model → String → Bool → Except ε StrategyPlugin)
    (baseInit : BaseStrategyCall × Store → Except ε β)
    (model : Model) (optimizer : Optimizer) (criterion : Criterion)
    (evaluation_protocol : Option EvalProtocol)
    (train_mb_size : Nat) (train_epochs : Nat)
    (test_mb_size : Option Nat) (device : Option Device)
    (plugins : Option Ref) (classifier_field : String)
    (keep_initial_layer : Bool) (σ : Store) : Except ε β :=
  match mkMultiHeadPlugin model classifier_field keep_initial_layer with
  | Except.error e => Except.error e
  | Except.ok mhp =>
      baseInit (MTNaive.assemble model optimizer criterion
        evaluation_protocol train_mb_size train_epochs test_mb_size device
        plugins mhp σ)

/-- `CWRStar.__init__` with the plugin constructor and the base constructor
taken as possibly-failing parameters, mirroring the straight-line body:
build the plugin first (line 118), then assemble and call the base, with
no try/except anywhere. -/
def CWRStar.initE {ε β : Type}
    (mkCWRStarPlugin : Model → String → Nat → Except ε StrategyPlugin)
    (baseInit : BaseStrategyCall × Store → Except ε β)
    (model : Model) (optimizer : Optimizer) (criterion : Criterion)
    (second_last_layer_name : String) (num_classes : Nat)
    (evaluation_protocol : Option EvalProtocol)
    (train_mb_size : Nat) (train_epochs : Nat)
    (test_mb_size : Option Nat) (device : Option Device)
    (plugins : Option Ref) (σ : Store) : Except ε β :=
  match mkCWRStarPlugin model second_last_layer_name num_classes with
  | Except.error e => Except.error e
  | Except.ok cwsp =>
      baseInit (CWRStar.assemble model optimizer criterion
        evaluation_protocol train_mb_size train_epochs test_mb_size device
        plugins cwsp σ)

/-- Helper: reading the freshly allocated cell at the end of the store. -/
theorem store_get_concat (σ : Store) (l : List StrategyPlugin) :
    (σ ++ [l]).get? σ.length = some l := by
  induction σ with
  | nil => rfl
  | cons a t ih => simp

/-- Helper: reading a cell just overwritten in place. -/
theorem store_get_set_self (σ : Store) (r : Nat) (l : List StrategyPlugin)
    (h : r < σ.length) : (σ.set r l).get? r = some l := by
  induction σ generalizing r with
  | nil => simp at h
  | cons a t ih =>
    cases r with
    | zero => rfl
    | succ n =>
      simpa using ih n (by simpa using h)

/-- Helper: a successful read bounds the reference. -/
theorem store_ref_lt_of_get (σ : Store) (r : Nat) (l : List StrategyPlugin)
    (h : σ.get? r = some l) : r < σ.length := by
  induction σ generalizing r with
  | nil => simp [List.get?] at h
  | cons a t ih =>
    cases r with
    | zero => simp
    | succ n =>
      have := ih n (by simpa using h)
      simpa using Nat.succ_lt_succ this

/-- Helper: `getD` agrees with a successful `get?`. -/
theorem store_getD_of_get (σ : Store) (r : Nat) (l : List StrategyPlugin)
    (h : σ.get? r = some l) : σ.getD r [] = l := by
  induction σ generalizing r with
  | nil => simp [List.get?] at h
  | cons a t ih =>
    cases r with
    | zero =>
      simp [List.get?] at h
      simpa [List.getD] using h
    | succ n =>
      have := ih n (by simpa using h)
      simpa [List.getD] using this

/-- Helper: the `else` branch of `MTNaive.__init__` (line 78) overwrites
the caller's cell with its old content plus the new plugin. -/
theorem mtnaive_assemble_some_get (model : Model) (optimizer : Optimizer)
    (criterion : Criterion) (evaluation_protocol : Option EvalProtocol)
    (train_mb_size train_epochs : Nat) (test_mb_size : Option Nat)
    (device : Option Device) (mhp : StrategyPlugin) (σ : Store) (r : Ref)
    (l : List StrategyPlugin) (h : σ.get? r = some l) :
    (MTNaive.assemble model optimizer criterion evaluation_protocol
        train_mb_size train_epochs test_mb_size device (some r) mhp
        σ).2.get? r = some (l ++ [mhp]) := by
  have hD := store_getD_of_get σ r l h
  have hlt := store_ref_lt_of_get σ r l h
  show (σ.set r (σ.getD r [] ++ [mhp])).get? r = some (l ++ [mhp])
  rw [hD]
  exact store_get_set_self σ r _ hlt

/-- Helper: the `else` branch of `CWRStar.__init__` (line 122) overwrites
the caller's cell with its old content plus the new plugin. -/
theorem cwrstar_assemble_some_get (model : Model) (optimizer : Optimizer)
    (criterion : Criterion) (evaluation_protocol : Option EvalProtocol)
    (train_mb_size train_epochs : Nat) (test_mb_size : Option Nat)
    (device : Option Device) (cwsp : StrategyPlugin) (σ : Store) (r : Ref)
    (l : List StrategyPlugin) (h : σ.get? r = some l) :
    (CWRStar.assemble model optimizer criterion evaluation_protocol
        train_mb_size train_epochs test_mb_size device (some r) cwsp
        σ).2.get? r = some (l ++ [cwsp]) := by
  have hD := store_getD_of_get σ r l h
  have hlt := store_ref_lt_of_get σ r l h
  show (σ.set r (σ.getD r [] ++ [cwsp])).get? r = some (l ++ [cwsp])
  rw [hD]
  exact store_get_set_self σ r _ hlt

/-- C1: constructing `Naive` performs no transformation: every argument is
forwarded unchanged to the recorded `BaseStrategy.__init__` call (model,
criterion, optimizer, evaluation_protocol positionally in that order, the
remaining configuration by keyword), and the store of caller-visible
lists is untouched. -/
theorem C1_naive_forwards_all_arguments (model : Model)
    (optimizer : Optimizer) (criterion : Criterion)
    (evaluation_protocol : Option EvalProtocol)
    (train_mb_size train_epochs : Nat) (test_mb_size : Option Nat)
    (device : Option Device) (plugins : Option Ref) (σ : Store) :
    Naive.init model optimizer criterion evaluation_protocol train_mb_size
        train_epochs test_mb_size device plugins σ =
      (⟨model, criterion, optimizer, evaluation_protocol, train_mb_size,
        train_epochs, test_mb_size, device, plugins⟩, σ) := rfl

/-- C2: constructing `MTNaive` with `plugins=None` passes the base
constructor a plugin sequence of length exactly 1 whose single element is
the `MultiHeadPlugin` built with the given model, classifier_field and
keep_initial_layer. -/
theorem C2_mtnaive_none_single_multihead (model : Model)
    (optimizer : Optimizer) (criterion : Criterion)
    (evaluation_protocol : Option EvalProtocol)
    (train_mb_size train_epochs : Nat) (test_mb_size : Option Nat)
    (device : Option Device) (classifier_field : String)
    (keep_initial_layer : Bool) (σ : Store) :
    ∃ r,
      (MTNaive.init model optimizer criterion evaluation_protocol
          train_mb_size train_epochs test_mb_size device none
          classifier_field keep_initial_layer σ).1.plugins = some r ∧
      (MTNaive.init model optimizer criterion evaluation_protocol
          train_mb_size train_epochs test_mb_size device none
          classifier_field keep_initial_layer σ).2.get? r =
        some [MultiHeadPlugin model classifier_field keep_initial_layer] :=
  ⟨σ.length, rfl, store_get_concat σ _⟩

/-- C3: constructing `MTNaive` with the caller-supplied plugin list
`[q1, q2]` produces the sequence `[q1, q2, MultiHeadPlugin ...]`: the
caller's plugins keep their relative order and the internally constructed
plugin is placed last, and the base constructor receives that very list. -/
theorem C3_mtnaive_append_preserves_order (model : Model)
    (optimizer : Optimizer) (criterion : Criterion)
    (evaluation_protocol : Option EvalProtocol)
    (train_mb_size train_epochs : Nat) (test_mb_size : Option Nat)
    (device : Option Device) (classifier_field : String)
    (keep_initial_layer : Bool) (σ : Store) (r : Ref)
    (q1 q2 : StrategyPlugin) (h : σ.get? r = some [q1, q2]) :
    (MTNaive.init model optimizer criterion evaluation_protocol
        train_mb_size train_epochs test_mb_size device (some r)
        classifier_field keep_initial_layer σ).1.plugins = some r ∧
    (MTNaive.init model optimizer criterion evaluation_protocol
        train_mb_size train_epochs test_mb_size device (some r)
        classifier_field keep_initial_layer σ).2.get? r =
      some [q1, q2,
        MultiHeadPlugin model classifier_field keep_initial_layer] :=
  ⟨rfl, mtnaive_assemble_some_get model optimizer criterion
    evaluation_protocol train_mb_size train_epochs test_mb_size device
    _ σ r _ h⟩

/-- Witness for C3 at a concrete input: store with one list holding two
caller plugins, reference 0. -/
theorem C3_witness :
    (([[StrategyPlugin.ext 1, StrategyPlugin.ext 2]] : Store).get? 0 =
      some [StrategyPlugin.ext 1, StrategyPlugin.ext 2]) ∧
    (MTNaive.init 7 8 9 none 1 1 none none (some 0) "classifier" false
        [[StrategyPlugin.ext 1, StrategyPlugin.ext 2]]).1.plugins =
      some 0 ∧
    (MTNaive.init 7 8 9 none 1 1 none none (some 0) "classifier" false
        [[StrategyPlugin.ext 1, StrategyPlugin.ext 2]]).2.get? 0 =
      some [StrategyPlugin.ext 1, StrategyPlugin.ext 2,
        MultiHeadPlugin 7 "classifier" false] :=
  ⟨rfl, C3_mtnaive_append_preserves_order 7 8 9 none 1 1 none none
    "classifier" false [[StrategyPlugin.ext 1, StrategyPlugin.ext 2]] 0
    (StrategyPlugin.ext 1) (StrategyPlugin.ext 2) rfl⟩

/-- C4: constructing `CWRStar` with `plugins=None` passes the base
constructor the one-element sequence holding the `CWRStarPlugin` built
with the given model, second_last_layer_name and num_classes; when the
caller omits `num_classes` the plugin is built with 50. -/
theorem C4_cwrstar_none_single_plugin (model : Model)
    (optimizer : Optimizer) (criterion : Criterion)
    (second_last_layer_name : String) (num_classes : Nat)
    (evaluation_protocol : Option EvalProtocol)
    (train_mb_size train_epochs : Nat) (test_mb_size : Option Nat)
    (device : Option Device) (σ : Store) :
    (∃ r,
      (CWRStar.init model optimizer criterion second_last_layer_name
          num_classes evaluation_protocol train_mb_size train_epochs
          test_mb_size device none σ).1.plugins = some r ∧
      (CWRStar.init model optimizer criterion second_last_layer_name
          num_classes evaluation_protocol train_mb_size train_epochs
          test_mb_size device none σ).2.get? r =
        some [CWRStarPlugin model second_last_layer_name num_classes]) ∧
    (∃ r,
      (CWRStar.initOmitNumClasses model optimizer criterion
          second_last_layer_name evaluation_protocol train_mb_size
          train_epochs test_mb_size device none σ).1.plugins = some r ∧
      (CWRStar.initOmitNumClasses model optimizer criterion
          second_last_layer_name evaluation_protocol train_mb_size
          train_epochs test_mb_size device none σ).2.get? r =
        some [CWRStarPlugin model second_last_layer_name 50]) :=
  ⟨⟨σ.length, rfl, store_get_concat σ _⟩,
   ⟨σ.length, rfl, store_get_concat σ _⟩⟩

/-- C5: for a non-empty caller-supplied plugin list, `MTNaive` and
`CWRStar` mutate that very list object in place, appending one internally
constructed plugin; the mutation is visible through the caller's own
reference after construction returns. -/
theorem C5_caller_list_mutated_in_place (model : Model)
    (optimizer : Optimizer) (criterion : Criterion)
    (evaluation_protocol : Option EvalProtocol)
    (train_mb_size train_epochs : Nat) (test_mb_size : Option Nat)
    (device : Option Device) (classifier_field : String)
    (keep_initial_layer : Bool) (second_last_layer_name : String)
    (num_classes : Nat) (σ : Store) (r : Ref) (l : List StrategyPlugin)
    (_hne : l ≠ []) (h : σ.get? r = some l) :
    (MTNaive.init model optimizer criterion evaluation_protocol
        train_mb_size train_epochs test_mb_size device (some r)
        classifier_field keep_initial_layer σ).2.get? r =
      some (l ++
        [MultiHeadPlugin model classifier_field keep_initial_layer]) ∧
    (CWRStar.init model optimizer criterion second_last_layer_name
        num_classes evaluation_protocol train_mb_size train_epochs
        test_mb_size device (some r) σ).2.get? r =
      some (l ++
        [CWRStarPlugin model second_last_layer_name num_classes]) :=
  ⟨mtnaive_assemble_some_get model optimizer criterion
      evaluation_protocol train_mb_size train_epochs test_mb_size device
      _ σ r l h,
   cwrstar_assemble_some_get model optimizer criterion
      evaluation_protocol train_mb_size train_epochs test_mb_size device
      _ σ r l h⟩

/-- Witness for C5 at a concrete input: a one-cell store whose cell holds
one caller plugin, referenced as 0. -/
theorem C5_witness :
    (([StrategyPlugin.ext 4] : List StrategyPlugin) ≠ []) ∧
    (([[StrategyPlugin.ext 4]] : Store).get? 0 =
      some [StrategyPlugin.ext 4]) ∧
    (MTNaive.init 7 8 9 none 1 1 none none (some 0) "classifier" false
        [[StrategyPlugin.ext 4]]).2.get? 0 =
      some [StrategyPlugin.ext 4, MultiHeadPlugin 7 "classifier" false] ∧
    (CWRStar.init 7 8 9 "fc" 50 none 1 1 none none (some 0)
        [[StrategyPlugin.ext 4]]).2.get? 0 =
      some [StrategyPlugin.ext 4, CWRStarPlugin 7 "fc" 50] :=
  ⟨by decide, rfl,
   C5_caller_list_mutated_in_place 7 8 9 none 1 1 none none "classifier"
     false "fc" 50 [[StrategyPlugin.ext 4]] 0 [StrategyPlugin.ext 4]
     (by decide) rfl⟩

/-- C6: the internally built plugin is a member of the final plugin
sequence handed to the base constructor in every case: with `plugins=None`
it makes up the fresh one-element list, with a caller-supplied (valid)
list it is appended to it. -/
theorem C6_plugin_always_member (model : Model) (optimizer : Optimizer)
    (criterion : Criterion) (evaluation_protocol : Option EvalProtocol)
    (train_mb_size train_epochs : Nat) (test_mb_size : Option Nat)
    (device : Option Device) (classifier_field : String)
    (keep_initial_layer : Bool) (second_last_layer_name : String)
    (num_classes : Nat) (σ : Store) :
    (∃ r l,
      (MTNaive.init model optimizer criterion evaluation_protocol
          train_mb_size train_epochs test_mb_size device none
          classifier_field keep_initial_layer σ).1.plugins = some r ∧
      (MTNaive.init model optimizer criterion evaluation_protocol
          train_mb_size train_epochs test_mb_size device none
          classifier_field keep_initial_layer σ).2.get? r = some l ∧
      MultiHeadPlugin model classifier_field keep_initial_layer ∈ l) ∧
    (∀ r₀, r₀ < σ.length →
      ∃ r l,
        (MTNaive.init model optimizer criterion evaluation_protocol
            train_mb_size train_epochs test_mb_size device (some r₀)
            classifier_field keep_initial_layer σ).1.plugins = some r ∧
        (MTNaive.init model optimizer criterion evaluation_protocol
            train_mb_size train_epochs test_mb_size device (some r₀)
            classifier_field keep_initial_layer σ).2.get? r = some l ∧
        MultiHeadPlugin model classifier_field keep_initial_layer ∈ l) ∧
    (∃ r l,
      (CWRStar.init model optimizer criterion second_last_layer_name
          num_classes evaluation_protocol train_mb_size train_epochs
          test_mb_size device none σ).1.plugins = some r ∧
      (CWRStar.init model optimizer criterion second_last_layer_name
          num_classes evaluation_protocol train_mb_size train_epochs
          test_mb_size device none σ).2.get? r = some l ∧
      CWRStarPlugin model second_last_layer_name num_classes ∈ l) ∧
    (∀ r₀, r₀ < σ.length →
      ∃ r l,
        (CWRStar.init model optimizer criterion second_last_layer_name
            num_classes evaluation_protocol train_mb_size train_epochs
            test_mb_size device (some r₀) σ).1.plugins = some r ∧
        (CWRStar.init model optimizer criterion second_last_layer_name
            num_classes evaluation_protocol train_mb_size train_epochs
            test_mb_size device (some r₀) σ).2.get? r = some l ∧
        CWRStarPlugin model second_last_layer_name num_classes ∈ l) := by
  refine ⟨?_, ?_, ?_, ?_⟩
  · exact ⟨σ.length,
      [MultiHeadPlugin model classifier_field keep_initial_layer], rfl,
      store_get_concat σ _, by simp⟩
  · intro r₀ hr
    exact ⟨r₀, σ.getD r₀ [] ++
        [MultiHeadPlugin model classifier_field keep_initial_layer], rfl,
      store_get_set_self σ r₀ _ hr, by simp⟩
  · exact ⟨σ.length,
      [CWRStarPlugin model second_last_layer_name num_classes], rfl,
      store_get_concat σ _, by simp⟩
  · intro r₀ hr
    exact ⟨r₀, σ.getD r₀ [] ++
        [CWRStarPlugin model second_last_layer_name num_classes], rfl,
      store_get_set_self σ r₀ _ hr, by simp⟩

/-- Witness for C6 at a concrete input: the two caller-supplied-list
branches at reference 0 of a one-cell store. -/
theorem C6_witness :
    (∃ r l,
      (MTNaive.init 7 8 9 none 1 1 none none (some 0) "classifier" false
          [[StrategyPlugin.ext 5]]).1.plugins = some r ∧
      (MTNaive.init 7 8 9 none 1 1 none none (some 0) "classifier" false
          [[StrategyPlugin.ext 5]]).2.get? r = some l ∧
      MultiHeadPlugin 7 "classifier" false ∈ l) ∧
    (∃ r l,
      (CWRStar.init 7 8 9 "fc" 50 none 1 1 none none (some 0)
          [[StrategyPlugin.ext 5]]).1.plugins = some r ∧
      (CWRStar.init 7 8 9 "fc" 50 none 1 1 none none (some 0)
          [[StrategyPlugin.ext 5]]).2.get? r = some l ∧
      CWRStarPlugin 7 "fc" 50 ∈ l) :=
  ⟨(C6_plugin_always_member 7 8 9 none 1 1 none none "classifier" false
      "fc" 50 [[StrategyPlugin.ext 5]]).2.1 0 (by decide),
   (C6_plugin_always_member 7 8 9 none 1 1 none none "classifier" false
      "fc" 50 [[StrategyPlugin.ext 5]]).2.2.2 0 (by decide)⟩

/-- C7: with every optional parameter omitted the constructors use exactly
`evaluation_protocol=None`, `train_mb_size=1`, `train_epochs=1`,
`test_mb_size=None`, `device=None`, `plugins=None`; `MTNaive` builds its
plugin with `classifier_field="classifier"` and `keep_initial_layer=False`;
`CWRStar` builds its plugin with `num_classes=50`, while
`second_last_layer_name` stays a required argument of
`CWRStar.initDefault`. -/
theorem C7_signature_defaults (model : Model) (optimizer : Optimizer)
    (criterion : Criterion) (second_last_layer_name : String) (σ : Store) :
    Naive.initDefault model optimizer criterion σ =
      (⟨model, criterion, optimizer, none, 1, 1, none, none, none⟩, σ) ∧
    MTNaive.initDefault model optimizer criterion σ =
      (⟨model, criterion, optimizer, none, 1, 1, none, none,
          some σ.length⟩,
        σ ++ [[MultiHeadPlugin model "classifier" false]]) ∧
    CWRStar.initDefault model optimizer criterion second_last_layer_name
        σ =
      (⟨model, criterion, optimizer, none, 1, 1, none, none,
          some σ.length⟩,
        σ ++ [[CWRStarPlugin model second_last_layer_name 50]]) :=
  ⟨rfl, rfl, rfl⟩

/-- C8: none of the three constructors catches or transforms an error:
a failure of the internally constructed plugin's constructor, or of the
base constructor, surfaces unchanged from the wrapper. -/
theorem C8_errors_propagate_unchanged {ε β : Type}
    (mkMHP : Model → String → Bool → Except ε StrategyPlugin)
    (mkCWSP : Model → String → Nat → Except ε StrategyPlugin)
    (baseInit : BaseStrategyCall × Store → Except ε β)
    (model : Model) (optimizer : Optimizer) (criterion : Criterion)
    (second_last_layer_name : String) (num_classes : Nat)
    (evaluation_protocol : Option EvalProtocol)
    (train_mb_size train_epochs : Nat) (test_mb_size : Option Nat)
    (device : Option Device) (plugins : Option Ref)
    (classifier_field : String) (keep_initial_layer : Bool)
    (σ : Store) (e : ε) :
    (baseInit (Naive.init model optimizer criterion evaluation_protocol
        train_mb_size train_epochs test_mb_size device plugins σ) =
          Except.error e →
      Naive.initE baseInit model optimizer criterion evaluation_protocol
        train_mb_size train_epochs test_mb_size device plugins σ =
          Except.error e) ∧
    (mkMHP model classifier_field keep_initial_layer = Except.error e →
      MTNaive.initE mkMHP baseInit model optimizer criterion
        evaluation_protocol train_mb_size train_epochs test_mb_size
        device plugins classifier_field keep_initial_layer σ =
          Except.error e) ∧
    (∀ p, mkMHP model classifier_field keep_initial_layer = Except.ok p →
      baseInit (MTNaive.assemble model optimizer criterion
          evaluation_protocol train_mb_size train_epochs test_mb_size
          device plugins p σ) = Except.error e →
      MTNaive.initE mkMHP baseInit model optimizer criterion
        evaluation_protocol train_mb_size train_epochs test_mb_size
        device plugins classifier_field keep_initial_layer σ =
          Except.error e) ∧
    (mkCWSP model second_last_layer_name num_classes = Except.error e →
      CWRStar.initE mkCWSP baseInit model optimizer criterion
        second_last_layer_name num_classes evaluation_protocol
        train_mb_size train_epochs test_mb_size device plugins σ =
          Except.error e) ∧
    (∀ p, mkCWSP model second_last_layer_name num_classes =
        Except.ok p →
      baseInit (CWRStar.assemble model optimizer criterion
          evaluation_protocol train_mb_size train_epochs test_mb_size
          device plugins p σ) = Except.error e →
      CWRStar.initE mkCWSP baseInit model optimizer criterion
        second_last_layer_name num_classes evaluation_protocol
        train_mb_size train_epochs test_mb_size device plugins σ =
          Except.error e) := by
  refine ⟨fun hb => hb, fun hm => ?_, fun p hp hb => ?_, fun hm => ?_,
    fun p hp hb => ?_⟩
  · unfold MTNaive.initE
    rw [hm]
  · unfold MTNaive.initE
    rw [hp]
    exact hb
  · unfold CWRStar.initE
    rw [hm]
  · unfold CWRStar.initE
    rw [hp]
    exact hb

/-- Witness for C8 at concrete failing constructors. -/
theorem C8_witness :
    Naive.initE (fun _ => (Except.error "base" : Except String Nat))
      7 8 9 none 1 1 none none none [] = Except.error "base" ∧
    MTNaive.initE (fun _ _ _ => Except.error "mhp")
      (fun _ => (Except.ok 0 : Except String Nat))
      7 8 9 none 1 1 none none none "classifier" false [] =
        Except.error "mhp" ∧
    MTNaive.initE (fun m c k => Except.ok (MultiHeadPlugin m c k))
      (fun _ => (Except.error "base" : Except String Nat))
      7 8 9 none 1 1 none none none "classifier" false [] =
        Except.error "base" ∧
    CWRStar.initE (fun _ _ _ => Except.error "cwsp")
      (fun _ => (Except.ok 0 : Except String Nat))
      7 8 9 "fc" 50 none 1 1 none none none [] = Except.error "cwsp" ∧
    CWRStar.initE (fun m s n => Except.ok (CWRStarPlugin m s n))
      (fun _ => (Except.error "base" : Except String Nat))
      7 8 9 "fc" 50 none 1 1 none none none [] = Except.error "base" :=
  ⟨(C8_errors_propagate_unchanged (fun _ _ _ => Except.ok
      (StrategyPlugin.ext 0)) (fun _ _ _ => Except.ok
      (StrategyPlugin.ext 0)) (fun _ => Except.error "base") 7 8 9 "fc" 50
      none 1 1 none none none "classifier" false [] "base").1 rfl,
   (C8_errors_propagate_unchanged (fun _ _ _ => Except.error "mhp")
      (fun _ _ _ => Except.ok (StrategyPlugin.ext 0))
      (fun _ => Except.ok 0) 7 8 9 "fc" 50 none 1 1 none none none
      "classifier" false [] "mhp").2.1 rfl,
   (C8_errors_propagate_unchanged
      (fun m c k => Except.ok (MultiHeadPlugin m c k))
      (fun _ _ _ => Except.ok (StrategyPlugin.ext 0))
      (fun _ => Except.error "base") 7 8 9 "fc" 50 none 1 1 none none none
      "classifier" false [] "base").2.2.1 _ rfl rfl,
   (C8_errors_propagate_unchanged
      (fun _ _ _ => Except.ok (StrategyPlugin.ext 0))
      (fun _ _ _ => Except.error "cwsp") (fun _ => Except.ok 0) 7 8 9 "fc"
      50 none 1 1 none none none "classifier" false [] "cwsp").2.2.2.1 rfl,
   (C8_errors_propagate_unchanged
      (fun _ _ _ => Except.ok (StrategyPlugin.ext 0))
      (fun m s n => Except.ok (CWRStarPlugin m s n))
      (fun _ => Except.error "base") 7 8 9 "fc" 50 none 1 1 none none none
      "classifier" false [] "base").2.2.2.2 _ rfl rfl⟩

/-- C9: a caller-supplied empty list is an existing list, not absent: the
internally built plugin is appended to that same cell (which becomes a
one-element list; no fresh list is allocated, the store keeps its length),
and only the exact value `None` makes the constructors allocate a fresh
list. -/
theorem C9_empty_list_not_treated_as_none (model : Model)
    (optimizer : Optimizer) (criterion : Criterion)
    (evaluation_protocol : Option EvalProtocol)
    (train_mb_size train_epochs : Nat) (test_mb_size : Option Nat)
    (device : Option Device) (classifier_field : String)
    (keep_initial_layer : Bool) (second_last_layer_name : String)
    (num_classes : Nat) (σ : Store) (r : Ref)
    (h : σ.get? r = some []) :
    ((MTNaive.init model optimizer criterion evaluation_protocol
        train_mb_size train_epochs test_mb_size device (some r)
        classifier_field keep_initial_layer σ).1.plugins = some r ∧
     (MTNaive.init model optimizer criterion evaluation_protocol
        train_mb_size train_epochs test_mb_size device (some r)
        classifier_field keep_initial_layer σ).2.get? r =
       some [MultiHeadPlugin model classifier_field keep_initial_layer] ∧
     (MTNaive.init model optimizer criterion evaluation_protocol
        train_mb_size train_epochs test_mb_size device (some r)
        classifier_field keep_initial_layer σ).2.length = σ.length) ∧
    ((CWRStar.init model optimizer criterion second_last_layer_name
        num_classes evaluation_protocol train_mb_size train_epochs
        test_mb_size device (some r) σ).1.plugins = some r ∧
     (CWRStar.init model optimizer criterion second_last_layer_name
        num_classes evaluation_protocol train_mb_size train_epochs
        test_mb_size device (some r) σ).2.get? r =
       some [CWRStarPlugin model second_last_layer_name num_classes] ∧
     (CWRStar.init model optimizer criterion second_last_layer_name
        num_classes evaluation_protocol train_mb_size train_epochs
        test_mb_size device (some r) σ).2.length = σ.length) ∧
    (MTNaive.init model optimizer criterion evaluation_protocol
        train_mb_size train_epochs test_mb_size device none
        classifier_field keep_initial_layer σ).2.length = σ.length + 1 ∧
    (CWRStar.init model optimizer criterion second_last_layer_name
        num_classes evaluation_protocol train_mb_size train_epochs
        test_mb_size device none σ).2.length = σ.length + 1 := by
  refine ⟨⟨rfl, ?_, ?_⟩, ⟨rfl, ?_, ?_⟩, ?_, ?_⟩
  · exact mtnaive_assemble_some_get model optimizer criterion
      evaluation_protocol train_mb_size train_epochs test_mb_size device
      _ σ r [] h
  · simp [MTNaive.init, MTNaive.assemble]
  · exact cwrstar_assemble_some_get model optimizer criterion
      evaluation_protocol train_mb_size train_epochs test_mb_size device
      _ σ r [] h
  · simp [CWRStar.init, CWRStar.assemble]
  · simp [MTNaive.init, MTNaive.assemble]
  · simp [CWRStar.init, CWRStar.assemble]

/-- Witness for C9 at a concrete input: a store with one empty cell,
referenced as 0. -/
theorem C9_witness :
    (([[]] : Store).get? 0 = some []) ∧
    ((MTNaive.init 7 8 9 none 1 1 none none (some 0) "classifier" false
        [[]]).1.plugins = some 0 ∧
     (MTNaive.init 7 8 9 none 1 1 none none (some 0) "classifier" false
        [[]]).2.get? 0 = some [MultiHeadPlugin 7 "classifier" false] ∧
     (MTNaive.init 7 8 9 none 1 1 none none (some 0) "classifier" false
        [[]]).2.length = ([[]] : Store).length) ∧
    ((CWRStar.init 7 8 9 "fc" 50 none 1 1 none none (some 0)
        [[]]).1.plugins = some 0 ∧
     (CWRStar.init 7 8 9 "fc" 50 none 1 1 none none (some 0)
        [[]]).2.get? 0 = some [CWRStarPlugin 7 "fc" 50] ∧
     (CWRStar.init 7 8 9 "fc" 50 none 1 1 none none (some 0)
        [[]]).2.length = ([[]] : Store).length) ∧
    (MTNaive.init 7 8 9 none 1 1 none none none "classifier" false
        [[]]).2.length = ([[]] : Store).length + 1 ∧
    (CWRStar.init 7 8 9 "fc" 50 none 1 1 none none none
        [[]]).2.length = ([[]] : Store).length + 1 :=
  ⟨rfl, C9_empty_list_not_treated_as_none 7 8 9 none 1 1 none none
    "classifier" false "fc" 50 [[]] 0 rfl⟩

/-- C10: each wrapper takes `(model, optimizer, criterion)` but invokes
the base constructor with positional order `(model, criterion, optimizer)`
(second and third swapped relative to the wrapper's own signature), the
remaining configuration arriving as the keyword fields, unchanged. -/
theorem C10_positional_swap (model : Model) (optimizer : Optimizer)
    (criterion : Criterion) (second_last_layer_name : String)
    (num_classes : Nat) (evaluation_protocol : Option EvalProtocol)
    (train_mb_size train_epochs : Nat) (test_mb_size : Option Nat)
    (device : Option Device) (plugins : Option Ref)
    (classifier_field : String) (keep_initial_layer : Bool) (σ : Store) :
    ((Naive.init model optimizer criterion evaluation_protocol
        train_mb_size train_epochs test_mb_size device plugins σ).1 =
      ⟨model, criterion, optimizer, evaluation_protocol, train_mb_size,
        train_epochs, test_mb_size, device, plugins⟩) ∧
    ((MTNaive.init model optimizer criterion evaluation_protocol
        train_mb_size train_epochs test_mb_size device plugins
        classifier_field keep_initial_layer σ).1.p1 = model ∧
     (MTNaive.init model optimizer criterion evaluation_protocol
        train_mb_size train_epochs test_mb_size device plugins
        classifier_field keep_initial_layer σ).1.p2 = criterion ∧
     (MTNaive.init model optimizer criterion evaluation_protocol
        train_mb_size train_epochs test_mb_size device plugins
        classifier_field keep_initial_layer σ).1.p3 = optimizer ∧
     (MTNaive.init model optimizer criterion evaluation_protocol
        train_mb_size train_epochs test_mb_size device plugins
        classifier_field keep_initial_layer σ).1.p4 =
       evaluation_protocol ∧
     (MTNaive.init model optimizer criterion evaluation_protocol
        train_mb_size train_epochs test_mb_size device plugins
        classifier_field keep_initial_layer σ).1.train_mb_size =
       train_mb_size ∧
     (MTNaive.init model optimizer criterion evaluation_protocol
        train_mb_size train_epochs test_mb_size device plugins
        classifier_field keep_initial_layer σ).1.train_epochs =
       train_epochs ∧
     (MTNaive.init model optimizer criterion evaluation_protocol
        train_mb_size train_epochs test_mb_size device plugins
        classifier_field keep_initial_layer σ).1.test_mb_size =
       test_mb_size ∧
     (MTNaive.init model optimizer criterion evaluation_protocol
        train_mb_size train_epochs test_mb_size device plugins
        classifier_field keep_initial_layer σ).1.device = device) ∧
    ((CWRStar.init model optimizer criterion second_last_layer_name
        num_classes evaluation_protocol train_mb_size train_epochs
        test_mb_size device plugins σ).1.p1 = model ∧
     (CWRStar.init model optimizer criterion second_last_layer_name
        num_classes evaluation_protocol train_mb_size train_epochs
        test_mb_size device plugins σ).1.p2 = criterion ∧
     (CWRStar.init model optimizer criterion second_last_layer_name
        num_classes evaluation_protocol train_mb_size train_epochs
        test_mb_size device plugins σ).1.p3 = optimizer ∧
     (CWRStar.init model optimizer criterion second_last_layer_name
        num_classes evaluation_protocol train_mb_size train_epochs
        test_mb_size device plugins σ).1.p4 = evaluation_protocol ∧
     (CWRStar.init model optimizer criterion second_last_layer_name
        num_classes evaluation_protocol train_mb_size train_epochs
        test_mb_size device plugins σ).1.train_mb_size = train_mb_size ∧
     (CWRStar.init model optimizer criterion second_last_layer_name
        num_classes evaluation_protocol train_mb_size train_epochs
        test_mb_size device plugins σ).1.train_epochs = train_epochs ∧
     (CWRStar.init model optimizer criterion second_last_layer_name
        num_classes evaluation_protocol train_mb_size train_epochs
        test_mb_size device plugins σ).1.test_mb_size = test_mb_size ∧
     (CWRStar.init model optimizer criterion second_last_layer_name
        num_classes evaluation_protocol train_mb_size train_epochs
        test_mb_size device plugins σ).1.device = device) :=
  ⟨rfl, ⟨rfl, rfl, rfl, rfl, rfl, rfl, rfl, rfl⟩,
   ⟨rfl, rfl, rfl, rfl, rfl, rfl, rfl, rfl⟩⟩

end Avalanche
